import Mathlib

/-!
# Verification of `zula-core`

A shallow embedding of the `zula-core` shell library (`src/lib.rs`,
`src/plug.rs`) and proofs about it.

The OS (chdir, process spawning, dynamic library loading) is modelled as an
oracle `OsEnv` recording, for each call the code can make, the outcome the OS
produces.  The Rust code mutates `self`; here every mutating method returns a
pair of its `Result` value and the state after the call.
-/

/-- The kind of an OS-level I/O error (`std::io::ErrorKind`).  The code only
distinguishes `NotFound` from everything else (`lib.rs` line 156). -/
inductive ErrorKind
  | notFound
  | other (code : Nat)
deriving DecidableEq

/-- An OS-level I/O error (`std::io::Error`), reduced to its kind, which is
all the code ever inspects. -/
structure IoError where
  kind : ErrorKind
deriving DecidableEq

/-- A `libloading::Error`.  `PluginHook::new` (`plug.rs` lines 42-54) can fail
in two places: `Library::new` (opening/mapping the module file) and
`Library::get` (resolving the `init` entry symbol). -/
inductive LibError
  | openErr (msg : String)
  | resolveErr (msg : String)
deriving DecidableEq

/-- The behavioural view of a plugin instance (`Box<dyn Plugin>`, the
`ManuallyDrop` field `obj` of `PluginHook`).  The registry code only ever
calls `name()` on it (`lib.rs` line 167), which the `Plugin` trait requires to
be stable. -/
structure PluginObj where
  name : String
deriving DecidableEq

/-- Struct `PluginHook` (`plug.rs` lines 27-31): the composite resource bundling the
native module handle (`hook : libloading::Library`, modelled by an opaque
numeric handle identity), the plugin instance (`obj`), and the source path. -/
structure PluginHook where
  hook : Nat
  obj : PluginObj
  path : String
deriving DecidableEq

/-- Deref: `PluginHook` derefs to its `obj` (`plug.rs` lines 33-39), so
`plug.name()` in `lib.rs` line 167 is `obj.name()`. -/
def PluginHook.name (h : PluginHook) : String := h.obj.name

/-- Outcome of the pair made by `ShellState::set_cwd` of OS calls (`lib.rs` lines
121-122): `env::set_current_dir(path)` either fails, or succeeds and is
followed by `env::current_dir()`, which itself either fails or reports the
canonical directory. -/
inductive ChdirOutcome
  | fail (e : IoError)
  | okReadFail (e : IoError)
  | ok (canonical : String)
deriving DecidableEq

/-- Outcome of `Command::new(cmd).args(args).spawn()` followed by
`child.wait()` (`lib.rs` lines 152-161): the spawn either fails with an
`io::Error`, or produces a child whose `wait()` fails or returns an exit
status. -/
inductive SpawnOutcome
  | spawnErr (e : IoError)
  | spawned (wait : Except IoError Nat)

/-- Outcome of `PluginHook::new(path)` (`plug.rs` lines 42-54): a
`libloading` failure (module open, or `init` symbol resolution) or the
constructed hook. -/
inductive LoadOutcome
  | err (e : LibError)
  | ok (hook : PluginHook)
deriving DecidableEq

/-- The OS oracle: what the operating system answers to each call the core
can make. -/
structure OsEnv where
  chdir : String → ChdirOutcome
  spawn : String → List String → SpawnOutcome
  loadLib : String → LoadOutcome

/-- Enum `ZulaError` (`lib.rs` lines 185-194).  Source names: `Io` is rendered
`IoErr` here; `Opaque` wraps a boxed error, reduced to its message. -/
inductive ZulaError
  | IoErr (e : IoError)
  | InvalidCmd (cmd : String)
  | CommandEmpty
  | InvalidDir
  | RecursiveAlias
  | InvalidPlugin
  | LibErr (e : LibError)
  | Opaque (msg : String)
deriving DecidableEq

/-- The plugin registry `HashMap<String, PluginHook>` modelled as an
association list with unique keys.  `insertPlug` mirrors `HashMap::insert`:
a present key keeps its place and gets the new value, an absent key is
added. -/
def insertPlug : List (String × PluginHook) → String → PluginHook →
    List (String × PluginHook)
  | [], k, v => [(k, v)]
  | p :: rest, k, v =>
      if p.1 = k then (k, v) :: rest else p :: insertPlug rest k v

/-- Lookup, `HashMap::get`, on the registry model. -/
def lookupPlug : List (String × PluginHook) → String → Option PluginHook
  | [], _ => none
  | p :: rest, k => if p.1 = k then some p.2 else lookupPlug rest k

/-- The keys of the registry model (`HashMap::keys`). -/
def plugKeys (m : List (String × PluginHook)) : List String := m.map Prod.fst

/-- Struct `Config` (`lib.rs` lines 73-78). -/
structure Config where
  aliases : List (String × String)
  hotkeys : List (Char × String)
  plugins : List (String × PluginHook)
  safety : Bool

/-- Constructor `Config::new` (`lib.rs` lines 82-89). -/
def Config.new : Config :=
  { aliases := [], hotkeys := [], plugins := [], safety := false }

/-- The data fields of `ShellState` a header function can read.  In the
source the header is `fn(&ShellState) -> String`; the view carries every
data field of the state (the function cannot meaningfully inspect the
function pointer itself, and the I/O handles are opaque). -/
structure StateView where
  cwd : String
  history : List String
  config : Config

/-- Struct `ShellState` (`lib.rs` lines 63-71).  `stdin`/`stdout` are opaque process
handles, carried as unit tokens. -/
structure ShellState where
  cwd : String
  header : StateView → String
  history : List String
  config : Config
  stdin : Unit
  stdout : Unit

/-- The view of the state passed to the header function. -/
def ShellState.view (s : ShellState) : StateView :=
  { cwd := s.cwd, history := s.history, config := s.config }

/-- Method `ShellState::get_cwd` (`lib.rs` lines 116-118). -/
def ShellState.get_cwd (s : ShellState) : String := s.cwd

/-- Method `ShellState::set_cwd` (`lib.rs` lines 120-124):
`env::set_current_dir(path).map_err(|_| ZulaError::InvalidDir)?;` then
`self.cwd = env::current_dir().map(..)?;`. -/
def ShellState.set_cwd (os : OsEnv) (s : ShellState) (path : String) :
    Except ZulaError Unit × ShellState :=
  match os.chdir path with
  | ChdirOutcome.fail _ => (Except.error ZulaError.InvalidDir, s)
  | ChdirOutcome.okReadFail e => (Except.error (ZulaError.IoErr e), s)
  | ChdirOutcome.ok canonical => (Except.ok (), { s with cwd := canonical })

/-- The terminal-reset escape sequence appended by `get_header`
(`lib.rs` line 129). -/
def resetSeq : String := "\x1b[0m"

/-- Method `ShellState::get_header` (`lib.rs` lines 127-131):
`let mut head = (self.header)(self); head.push_str("\x1b[0m"); head`. -/
def ShellState.get_header (s : ShellState) : String :=
  s.header s.view ++ resetSeq

/-- Method `ShellState::exec` (`lib.rs` lines 134-163). -/
def ShellState.exec (os : OsEnv) (s : ShellState) (cmd : String)
    (args : List String) : Except ZulaError Unit × ShellState :=
  if cmd = "cd" then
    match args.head? with
    | some targ => ShellState.set_cwd os s targ
    | none => (Except.error ZulaError.CommandEmpty, s)
  else
    match os.spawn cmd args with
    | SpawnOutcome.spawnErr e =>
        if e.kind = ErrorKind.notFound then
          (Except.error (ZulaError.InvalidCmd cmd), s)
        else
          (Except.error (ZulaError.IoErr e), s)
    | SpawnOutcome.spawned (Except.error e) =>
        (Except.error (ZulaError.IoErr e), s)
    | SpawnOutcome.spawned (Except.ok _) => (Except.ok (), s)

/-- Method `ShellState::load_plugin` (`lib.rs` lines 165-169):
`let plug = unsafe { PluginHook::new(path) }?;` then
`self.config.plugins.insert(plug.name().to_owned(), plug);`. -/
def ShellState.load_plugin (os : OsEnv) (s : ShellState) (path : String) :
    Except LibError Unit × ShellState :=
  match os.loadLib path with
  | LoadOutcome.err e => (Except.error e, s)
  | LoadOutcome.ok plug =>
      (Except.ok (),
        { s with config :=
            { s.config with
                plugins := insertPlug s.config.plugins plug.name plug } })

/-- Method `ShellState::plugin_lookup` (`lib.rs` lines 171-176):
`self.config.plugins.get(name).ok_or(ZulaError::InvalidPlugin)`. -/
def ShellState.plugin_lookup (s : ShellState) (name : String) :
    Except ZulaError PluginHook :=
  match lookupPlug s.config.plugins name with
  | some h => Except.ok h
  | none => Except.error ZulaError.InvalidPlugin

/-- Method `ShellState::plugin_names` (`lib.rs` lines 178-180). -/
def ShellState.plugin_names (s : ShellState) : List String :=
  plugKeys s.config.plugins

/-! ## Teardown of a `PluginHook` (`plug.rs` lines 57-61)

Rust, when destroying of a `PluginHook` value, runs `Drop::drop` first and then
drops the remaining fields in declaration order.  Both explicit unload and
shell shutdown (dropping `Config`, which drops every registry entry) tear a
hook down through this same glue.  We record the teardown as the list of
resource-release events it performs, in order. -/

/-- A resource-release event during `PluginHook` teardown. -/
inductive TeardownEvent
  | releaseInstance
  | releaseModule
  | freePath
deriving DecidableEq

/-- The body of `impl Drop for PluginHook` (`plug.rs` lines 57-61):
`unsafe { ManuallyDrop::drop(&mut self.obj) }` releases the plugin
instance. -/
def pluginHookDropBody : List TeardownEvent := [TeardownEvent.releaseInstance]

/-- The implicit field drops that follow, in the declaration order of
`plug.rs` lines 27-31: `hook : Library` (unmaps the module), then
`obj : ManuallyDrop<..>` (a no-op: `ManuallyDrop` never drops its content),
then `path : String`. -/
def pluginHookFieldDrops : List TeardownEvent :=
  [TeardownEvent.releaseModule, TeardownEvent.freePath]

/-- The full teardown trace of a hook: the `Drop::drop` body, then the
implicit field drops. -/
def pluginHookTeardown (_h : PluginHook) : List TeardownEvent :=
  pluginHookDropBody ++ pluginHookFieldDrops

/-! ## Helper lemmas on the registry model -/

theorem plugKeys_nil : plugKeys [] = [] := rfl

theorem plugKeys_cons (p : String × PluginHook) (m : List (String × PluginHook)) :
    plugKeys (p :: m) = p.1 :: plugKeys m := rfl

theorem lookupPlug_insertPlug_self (m : List (String × PluginHook))
    (k : String) (v : PluginHook) :
    lookupPlug (insertPlug m k v) k = some v := by
  induction m with
  | nil => simp [insertPlug, lookupPlug]
  | cons p rest ih =>
      by_cases hp : p.1 = k
      · simp [insertPlug, hp, lookupPlug]
      · simp [insertPlug, hp, lookupPlug, ih]

theorem plugKeys_insertPlug_of_mem (m : List (String × PluginHook))
    (k : String) (v : PluginHook) (h : k ∈ plugKeys m) :
    plugKeys (insertPlug m k v) = plugKeys m := by
  induction m with
  | nil => simp [plugKeys] at h
  | cons p rest ih =>
      by_cases hp : p.1 = k
      · simp [insertPlug, hp, plugKeys_cons]
      · have hmem : k ∈ plugKeys rest := by
          rcases (by simpa [plugKeys_cons] using h : k = p.1 ∨ k ∈ plugKeys rest) with h1 | h2
          · exact absurd h1.symm hp
          · exact h2
        simp [insertPlug, hp, plugKeys_cons, ih hmem]

theorem plugKeys_insertPlug_of_not_mem (m : List (String × PluginHook))
    (k : String) (v : PluginHook) (h : k ∉ plugKeys m) :
    plugKeys (insertPlug m k v) = plugKeys m ++ [k] := by
  induction m with
  | nil => simp [insertPlug, plugKeys]
  | cons p rest ih =>
      have hp : p.1 ≠ k := by
        intro he
        exact h (by simp [plugKeys_cons, he])
      have hr : k ∉ plugKeys rest := by
        intro hmem
        exact h (by simp [plugKeys_cons, hmem])
      simp [insertPlug, hp, plugKeys_cons, ih hr]

theorem nodup_plugKeys_insertPlug (m : List (String × PluginHook))
    (k : String) (v : PluginHook) (h : (plugKeys m).Nodup) :
    (plugKeys (insertPlug m k v)).Nodup := by
  by_cases hk : k ∈ plugKeys m
  · rw [plugKeys_insertPlug_of_mem m k v hk]
    exact h
  · rw [plugKeys_insertPlug_of_not_mem m k v hk]
    simp [List.nodup_append, h, hk]

theorem lookupPlug_mem (m : List (String × PluginHook)) (k : String)
    (v : PluginHook) (h : lookupPlug m k = some v) : (k, v) ∈ m := by
  induction m with
  | nil => simp [lookupPlug] at h
  | cons p rest ih =>
      by_cases hp : p.1 = k
      · rw [lookupPlug, if_pos hp] at h
        have : (k, v) = p := by
          cases p
          cases h
          simp_all
        simp [this]
      · rw [lookupPlug, if_neg hp] at h
        exact List.mem_cons_of_mem _ (ih h)

theorem lookupPlug_isSome_iff (m : List (String × PluginHook)) (k : String) :
    (lookupPlug m k).isSome = true ↔ k ∈ plugKeys m := by
  induction m with
  | nil => simp [lookupPlug, plugKeys]
  | cons p rest ih =>
      by_cases hp : p.1 = k
      · simp [lookupPlug, hp, plugKeys_cons]
      · simp [lookupPlug, hp, plugKeys_cons, ih, Ne.symm hp]

theorem lookupPlug_eq_none (m : List (String × PluginHook)) (k : String)
    (h : k ∉ plugKeys m) : lookupPlug m k = none := by
  induction m with
  | nil => rfl
  | cons p rest ih =>
      have hp : p.1 ≠ k := fun he => h (by simp [plugKeys_cons, he])
      have hr : k ∉ plugKeys rest := fun hmem => h (by simp [plugKeys_cons, hmem])
      simp [lookupPlug, hp, ih hr]

/-! ## Concrete states and OS oracles used to instantiate the theorems -/

/-- A concrete plugin instance named `demo`. -/
def demoObj : PluginObj := { name := "demo" }

/-- A concrete hook as produced by a successful load. -/
def demoHook : PluginHook := { hook := 1, obj := demoObj, path := "/plugins/demo.so" }

/-- An older hook registered under the same name `demo`. -/
def oldHook : PluginHook := { hook := 0, obj := demoObj, path := "/plugins/old.so" }

/-- A concrete shell state with an empty registry. -/
def exampleState : ShellState :=
  { cwd := "/home", header := fun v => v.cwd, history := [], config := Config.new,
    stdin := (), stdout := () }

/-- A concrete shell state whose registry already has an entry named `demo`. -/
def collidingState : ShellState :=
  { exampleState with config := { Config.new with plugins := [("demo", oldHook)] } }

/-- A shell state whose header function itself emits a terminal-reset
sequence. -/
def resetHeaderState : ShellState :=
  { exampleState with header := fun _ => resetSeq }

/-- An OS oracle where `set_current_dir` fails. -/
def osChdirFail : OsEnv :=
  { chdir := fun _ => ChdirOutcome.fail { kind := ErrorKind.other 1 },
    spawn := fun _ _ => SpawnOutcome.spawned (Except.ok 0),
    loadLib := fun _ => LoadOutcome.ok demoHook }

/-- An OS oracle where `set_current_dir` succeeds but the following
`current_dir` read fails. -/
def osReadFail : OsEnv :=
  { chdir := fun _ => ChdirOutcome.okReadFail { kind := ErrorKind.other 2 },
    spawn := fun _ _ => SpawnOutcome.spawned (Except.ok 0),
    loadLib := fun _ => LoadOutcome.ok demoHook }

/-- An OS oracle where changing directory succeeds and the OS reports
`/canon` as the canonical current directory. -/
def osChdirOk : OsEnv :=
  { chdir := fun _ => ChdirOutcome.ok "/canon",
    spawn := fun _ _ => SpawnOutcome.spawned (Except.ok 0),
    loadLib := fun _ => LoadOutcome.ok demoHook }

/-- An OS oracle where spawning fails with `ErrorKind::NotFound`. -/
def osSpawnNotFound : OsEnv :=
  { osChdirOk with spawn := fun _ _ => SpawnOutcome.spawnErr { kind := ErrorKind.notFound } }

/-- An OS oracle where spawning fails with an error other than
`NotFound` (e.g. permission denied). -/
def osSpawnDenied : OsEnv :=
  { osChdirOk with spawn := fun _ _ => SpawnOutcome.spawnErr { kind := ErrorKind.other 13 } }

/-- An OS oracle where the child spawns but waiting on it fails. -/
def osWaitFail : OsEnv :=
  { osChdirOk with
    spawn := fun _ _ => SpawnOutcome.spawned (Except.error { kind := ErrorKind.other 5 }) }

/-- An OS oracle where opening the plugin module file fails. -/
def osLoadOpenFail : OsEnv :=
  { osChdirOk with loadLib := fun _ => LoadOutcome.err (LibError.openErr "bad file") }

/-- An OS oracle where the module opens but the `init` symbol cannot be
resolved. -/
def osLoadResolveFail : OsEnv :=
  { osChdirOk with loadLib := fun _ => LoadOutcome.err (LibError.resolveErr "no init") }

/-! ## C1: teardown ordering -/

/-- C1: tearing down a hook (unload or shell shutdown both run the same drop
glue) performs exactly one instance release and exactly one module release,
and the instance release comes strictly first, so the module handle is never
released while the instance is still alive. -/
theorem pluginHook_teardown_order (h : PluginHook) :
    (pluginHookTeardown h).count TeardownEvent.releaseInstance = 1 ∧
    (pluginHookTeardown h).count TeardownEvent.releaseModule = 1 ∧
    (pluginHookTeardown h).indexOf TeardownEvent.releaseInstance <
      (pluginHookTeardown h).indexOf TeardownEvent.releaseModule := by
  have htr : pluginHookTeardown h =
      [TeardownEvent.releaseInstance, TeardownEvent.releaseModule,
        TeardownEvent.freePath] := rfl
  rw [htr]
  decide

/-! ## C3 and C9: the `cd` builtin -/

/-- C3: `exec("cd", args)` with zero arguments returns `EmptyCommand`
(`ZulaError.CommandEmpty`) and leaves the state unchanged; with a single
argument it delegates to `set_cwd` on that argument. -/
theorem exec_cd_spec (os : OsEnv) (s : ShellState) :
    ShellState.exec os s "cd" [] = (Except.error ZulaError.CommandEmpty, s) ∧
    ∀ a, ShellState.exec os s "cd" [a] = ShellState.set_cwd os s a :=
  ⟨rfl, fun _ => rfl⟩

/-- C9: `exec("cd", args)` with two or more arguments does not fail because
of the extra arguments: it delegates to `set_cwd` on the first argument and
ignores the rest. -/
theorem exec_cd_ignores_extra_args (os : OsEnv) (s : ShellState) (a : String)
    (rest : List String) :
    ShellState.exec os s "cd" (a :: rest) = ShellState.set_cwd os s a := rfl

/-! ## C7 and C8: the header -/

/-- The description in the spec of `get_header`: apply the configured header
function to the current state, then append a single terminal-reset escape
sequence unconditionally. -/
def getHeaderSpecFn (s : ShellState) : String := s.header s.view ++ "\x1b[0m"

/-- C8: `get_header()` equals the output of the configured header function on the
current state with one terminal-reset sequence appended unconditionally. -/
theorem get_header_eq_spec (s : ShellState) :
    ShellState.get_header s = getHeaderSpecFn s ∧
    (ShellState.get_header s).data = (s.header s.view).data ++ resetSeq.data :=
  ⟨rfl, String.data_append _ _⟩

/-- C7 as stated: every `get_header()` output ends with *exactly one*
terminal-reset sequence (it ends with one, and does not end with two),
regardless of the configured header function. -/
def getHeaderExactlyOneResetClaim : Prop :=
  ∀ s : ShellState,
    resetSeq.data <:+ (ShellState.get_header s).data ∧
    ¬ (resetSeq.data ++ resetSeq.data) <:+ (ShellState.get_header s).data

/-- C7 counterexample: a header function that itself emits a terminal-reset
sequence makes `get_header()` end with two consecutive reset sequences, so
the output does not end with exactly one. -/
theorem get_header_exactly_one_reset_false : ¬ getHeaderExactlyOneResetClaim := by
  intro hclaim
  apply (hclaim resetHeaderState).2
  have hdata : (ShellState.get_header resetHeaderState).data =
      resetSeq.data ++ resetSeq.data := rfl
  rw [hdata]

/-- C7 amended: every `get_header()` output ends with a terminal-reset
sequence (at least the appended one), regardless of what the configured
header function emits. -/
theorem get_header_endsWith_reset (s : ShellState) :
    resetSeq.data <:+ (ShellState.get_header s).data := by
  show resetSeq.data <:+ (s.header s.view ++ resetSeq).data
  rw [String.data_append]
  exact List.suffix_append _ _

/-! ## C2: `set_cwd` -/

/-- C2 as stated: whenever `set_cwd` fails it returns `InvalidDirectory` and
leaves `get_cwd` unchanged, and whenever it succeeds it stores the
OS-reported canonical directory. -/
def setCwdClaim : Prop :=
  ∀ (os : OsEnv) (s : ShellState) (path : String),
    (∀ e, (ShellState.set_cwd os s path).1 = Except.error e →
      e = ZulaError.InvalidDir ∧
      ShellState.get_cwd (ShellState.set_cwd os s path).2 = ShellState.get_cwd s) ∧
    (∀ u, (ShellState.set_cwd os s path).1 = Except.ok u →
      ∃ c, os.chdir path = ChdirOutcome.ok c ∧
        ShellState.get_cwd (ShellState.set_cwd os s path).2 = c)

/-- C2 counterexample: when the OS accepts the directory change but the
subsequent `current_dir` read fails (the `?` on `lib.rs` line 122), `set_cwd`
fails with a wrapped I/O error, not with `InvalidDirectory`. -/
theorem set_cwd_failure_not_always_invalidDir : ¬ setCwdClaim := by
  intro hclaim
  have h1 := ((hclaim osReadFail exampleState "/tmp").1
    (ZulaError.IoErr { kind := ErrorKind.other 2 }) rfl).1
  exact absurd h1 (by decide)

/-- C2 amended: a failed OS chdir yields `InvalidDirectory`; a successful
chdir whose follow-up `current_dir` read fails yields a wrapped I/O error;
a fully successful call stores the OS-reported canonical directory; and on
every failure the whole state — in particular the tracked directory — is
unchanged. -/
theorem set_cwd_spec (os : OsEnv) (s : ShellState) (path : String) :
    (∀ e, os.chdir path = ChdirOutcome.fail e →
      ShellState.set_cwd os s path = (Except.error ZulaError.InvalidDir, s)) ∧
    (∀ e, os.chdir path = ChdirOutcome.okReadFail e →
      ShellState.set_cwd os s path = (Except.error (ZulaError.IoErr e), s)) ∧
    (∀ c, os.chdir path = ChdirOutcome.ok c →
      ShellState.set_cwd os s path = (Except.ok (), { s with cwd := c })) ∧
    (∀ e, (ShellState.set_cwd os s path).1 = Except.error e →
      (ShellState.set_cwd os s path).2 = s) := by
  refine ⟨?_, ?_, ?_, ?_⟩
  · intro e he
    simp [ShellState.set_cwd, he]
  · intro e he
    simp [ShellState.set_cwd, he]
  · intro c hc
    simp [ShellState.set_cwd, hc]
  · intro e he
    unfold ShellState.set_cwd at he ⊢
    cases hc : os.chdir path <;> simp [hc] at he ⊢

/-- Witness for `set_cwd_spec`: at concrete OS oracles each branch is
realized. -/
theorem set_cwd_spec_witness :
    ShellState.set_cwd osChdirFail exampleState "/nope" =
      (Except.error ZulaError.InvalidDir, exampleState) ∧
    ShellState.set_cwd osReadFail exampleState "/tmp" =
      (Except.error (ZulaError.IoErr { kind := ErrorKind.other 2 }), exampleState) ∧
    ShellState.set_cwd osChdirOk exampleState "/tmp" =
      (Except.ok (), { exampleState with cwd := "/canon" }) :=
  ⟨(set_cwd_spec osChdirFail exampleState "/nope").1 { kind := ErrorKind.other 1 } rfl,
   (set_cwd_spec osReadFail exampleState "/tmp").2.1 { kind := ErrorKind.other 2 } rfl,
   (set_cwd_spec osChdirOk exampleState "/tmp").2.2.1 "/canon" rfl⟩

/-! ## C4: spawn-failure reporting -/

/-- C4: for a command other than `cd`, a spawn failure of kind `NotFound` is
reported as `CommandNotFound(cmd)` (`ZulaError.InvalidCmd cmd`); any other
spawn failure and any wait failure is reported as a wrapped OS-level I/O
error. -/
theorem exec_spawn_failure_spec (os : OsEnv) (s : ShellState) (cmd : String)
    (args : List String) (hcd : cmd ≠ "cd") :
    (∀ e, os.spawn cmd args = SpawnOutcome.spawnErr e →
      e.kind = ErrorKind.notFound →
      ShellState.exec os s cmd args = (Except.error (ZulaError.InvalidCmd cmd), s)) ∧
    (∀ e, os.spawn cmd args = SpawnOutcome.spawnErr e →
      e.kind ≠ ErrorKind.notFound →
      ShellState.exec os s cmd args = (Except.error (ZulaError.IoErr e), s)) ∧
    (∀ e, os.spawn cmd args = SpawnOutcome.spawned (Except.error e) →
      ShellState.exec os s cmd args = (Except.error (ZulaError.IoErr e), s)) := by
  refine ⟨?_, ?_, ?_⟩
  · intro e hsp hk
    simp [ShellState.exec, hcd, hsp, hk]
  · intro e hsp hk
    simp [ShellState.exec, hcd, hsp, hk]
  · intro e hsp
    simp [ShellState.exec, hcd, hsp]

/-- Witness for `exec_spawn_failure_spec`: the three failure modes at
concrete OS oracles. -/
theorem exec_spawn_failure_spec_witness :
    ShellState.exec osSpawnNotFound exampleState "ls" [] =
      (Except.error (ZulaError.InvalidCmd "ls"), exampleState) ∧
    ShellState.exec osSpawnDenied exampleState "ls" [] =
      (Except.error (ZulaError.IoErr { kind := ErrorKind.other 13 }), exampleState) ∧
    ShellState.exec osWaitFail exampleState "ls" [] =
      (Except.error (ZulaError.IoErr { kind := ErrorKind.other 5 }), exampleState) :=
  ⟨(exec_spawn_failure_spec osSpawnNotFound exampleState "ls" [] (by decide)).1
      { kind := ErrorKind.notFound } rfl rfl,
   (exec_spawn_failure_spec osSpawnDenied exampleState "ls" [] (by decide)).2.1
      { kind := ErrorKind.other 13 } rfl (by decide),
   (exec_spawn_failure_spec osWaitFail exampleState "ls" [] (by decide)).2.2
      { kind := ErrorKind.other 5 } rfl⟩

/-! ## C5, C6, C10: the plugin registry -/

/-- C5: after a successful load, registry keys are still unique, the loaded
hook is found under its reported name, and when that name was already
registered the key set is unchanged — the prior entry is overwritten rather
than kept alongside the new one or rejected. -/
theorem load_plugin_registry_spec (os : OsEnv) (s : ShellState) (path : String)
    (h : PluginHook) (hok : os.loadLib path = LoadOutcome.ok h)
    (hnd : (plugKeys s.config.plugins).Nodup) :
    (plugKeys ((ShellState.load_plugin os s path).2.config.plugins)).Nodup ∧
    lookupPlug ((ShellState.load_plugin os s path).2.config.plugins)
      (PluginHook.name h) = some h ∧
    (PluginHook.name h ∈ plugKeys s.config.plugins →
      plugKeys ((ShellState.load_plugin os s path).2.config.plugins) =
        plugKeys s.config.plugins) := by
  have hstate : (ShellState.load_plugin os s path).2.config.plugins =
      insertPlug s.config.plugins (PluginHook.name h) h := by
    simp [ShellState.load_plugin, hok]
  rw [hstate]
  exact ⟨nodup_plugKeys_insertPlug _ _ _ hnd,
    lookupPlug_insertPlug_self _ _ _,
    fun hmem => plugKeys_insertPlug_of_mem _ _ _ hmem⟩

/-- Witness for `load_plugin_registry_spec`: loading `demo` into a registry
that already has a `demo` entry keeps the single key and replaces the
hook. -/
theorem load_plugin_registry_spec_witness :
    (plugKeys ((ShellState.load_plugin osChdirOk collidingState
        "/plugins/demo.so").2.config.plugins)).Nodup ∧
    lookupPlug ((ShellState.load_plugin osChdirOk collidingState
        "/plugins/demo.so").2.config.plugins) "demo" = some demoHook ∧
    plugKeys ((ShellState.load_plugin osChdirOk collidingState
        "/plugins/demo.so").2.config.plugins) = ["demo"] := by
  have hm := load_plugin_registry_spec osChdirOk collidingState
    "/plugins/demo.so" demoHook rfl (by decide)
  exact ⟨hm.1, hm.2.1, hm.2.2 (by decide)⟩

/-- C6: `plugin_lookup` succeeds exactly on registered names — success is
equivalent to the name being a registry key, any returned hook is the
registered entry for that name, and an unregistered name yields
`PluginNotFound` (`ZulaError.InvalidPlugin`), never a default value. -/
theorem plugin_lookup_spec (s : ShellState) (name : String) :
    ((∃ h, ShellState.plugin_lookup s name = Except.ok h) ↔
      name ∈ plugKeys s.config.plugins) ∧
    (∀ h, ShellState.plugin_lookup s name = Except.ok h →
      (name, h) ∈ s.config.plugins) ∧
    (name ∉ plugKeys s.config.plugins →
      ShellState.plugin_lookup s name = Except.error ZulaError.InvalidPlugin) := by
  refine ⟨?_, ?_, ?_⟩
  · constructor
    · rintro ⟨h, hh⟩
      rw [← lookupPlug_isSome_iff]
      unfold ShellState.plugin_lookup at hh
      cases hl : lookupPlug s.config.plugins name <;> simp [hl] at hh ⊢
    · intro hmem
      have := (lookupPlug_isSome_iff s.config.plugins name).2 hmem
      cases hl : lookupPlug s.config.plugins name with
      | none => rw [hl] at this; simp at this
      | some v => exact ⟨v, by simp [ShellState.plugin_lookup, hl]⟩
  · intro h hh
    unfold ShellState.plugin_lookup at hh
    cases hl : lookupPlug s.config.plugins name with
    | none => rw [hl] at hh; simp at hh
    | some v =>
        rw [hl] at hh
        simp at hh
        exact lookupPlug_mem _ _ _ (hh ▸ hl)
  · intro hmem
    simp [ShellState.plugin_lookup, lookupPlug_eq_none _ _ hmem]

/-- Witness for `plugin_lookup_spec`: a registered name is found with its
hook, an unregistered name yields `InvalidPlugin`. -/
theorem plugin_lookup_spec_witness :
    ("demo", oldHook) ∈ collidingState.config.plugins ∧
    ShellState.plugin_lookup collidingState "nope" =
      Except.error ZulaError.InvalidPlugin :=
  ⟨(plugin_lookup_spec collidingState "demo").2.1 oldHook rfl,
   (plugin_lookup_spec collidingState "nope").2.2 (by decide)⟩

/-- C10: a failed plugin load — whether the module file cannot be opened or
the `init` entry symbol cannot be resolved — propagates the `libloading`
error and leaves the whole shell state, in particular the plugin registry,
unchanged. -/
theorem load_plugin_error_spec (os : OsEnv) (s : ShellState) (path : String)
    (e : LibError) (he : os.loadLib path = LoadOutcome.err e) :
    ShellState.load_plugin os s path = (Except.error e, s) := by
  simp [ShellState.load_plugin, he]

/-- Witness for `load_plugin_error_spec`: both failure kinds at concrete OS
oracles leave the state untouched. -/
theorem load_plugin_error_spec_witness :
    ShellState.load_plugin osLoadOpenFail exampleState "/plugins/demo.so" =
      (Except.error (LibError.openErr "bad file"), exampleState) ∧
    ShellState.load_plugin osLoadResolveFail collidingState "/plugins/demo.so" =
      (Except.error (LibError.resolveErr "no init"), collidingState) :=
  ⟨load_plugin_error_spec osLoadOpenFail exampleState "/plugins/demo.so"
      (LibError.openErr "bad file") rfl,
   load_plugin_error_spec osLoadResolveFail collidingState "/plugins/demo.so"
      (LibError.resolveErr "no init") rfl⟩
